import Mathlib

/-!
Verification of the Iris-flow segment job state machine and media
composition engine.

This development shallowly embeds the Python sources of the repository:

* `main_service/app/models.py`        — `Segment`, `GenerationJob` data model
* `main_service/app/state_machine.py` — `process_segment`, `run_generation_job`,
  `retry_segment`, `generate_veo_clips`
* `main_service/app/video_combiner.py` — `combine_audio_video`,
  `match_video_to_audio_duration`, `create_transition_composition`
* `main_service/app/main.py`          — `delete_segment` endpoint
* `serverless/src/video_pipeline.py`  — the transition branch of
  `VideoPipeline._process_segment`

Durations and speed factors are modelled as rationals (the Python floats
are read as exact decimal literals).  External effects — TTS, the three
renderer services, ffmpeg/ffprobe subprocesses — are modelled as an
explicit record of call results (`ExtCalls`); ffmpeg invocations are
embedded as command descriptors built exactly as the source builds the
argument lists, and each external step performed by the segment
processor is recorded in an event trace.
-/

namespace Iris

/-- `SegmentType` from `models.py`. -/
inductive SegmentType where
  | animation
  | manim
  | pysim
  | transition
deriving DecidableEq, Repr

/-- `SegmentStatus` from `models.py`. -/
inductive SegmentStatus where
  | pending
  | processing
  | completed
  | failed
deriving DecidableEq, Repr

/-- Job status literals from `models.py` (`GenerationJob.status`). -/
inductive JobStatus where
  | idle
  | running
  | paused
  | completed
  | failed
deriving DecidableEq, Repr

/-- `VoiceoverConfig` from `models.py` (speed as a rational). -/
structure VoiceoverConfig where
  text : String
  voice : String
  speed : Rat
deriving DecidableEq, Repr

/-- `Segment` from `models.py`.  `created_at`/`updated_at` timestamps are
not modelled; `metadata` is modelled by its only field the state machine
writes, `metadata['script']` (`metadata_script`).  Log entries are kept as
their message text without the timestamp the source prepends. -/
structure Segment where
  id : String
  order : Nat
  type : SegmentType
  title : String
  description : String
  voiceover : Option VoiceoverConfig := none
  metadata_script : Option String := none
  status : SegmentStatus := .pending
  video_path : Option String := none
  audio_path : Option String := none
  combined_path : Option String := none
  duration_seconds : Option Rat := none
  logs : List String := []
  error : Option String := none
  generated_script : Option String := none
deriving DecidableEq, Repr

/-- `GenerationJob` from `models.py` (timestamps not modelled). -/
structure Job where
  id : String
  segments : List Segment
  current_segment_index : Nat := 0
  status : JobStatus := .idle
  final_video_path : Option String := none
  context : Option String := none
deriving DecidableEq, Repr

/-! ## video_combiner.py — command-level embeddings -/

/-- The ffmpeg command built by `combine_audio_video`
(`video_combiner.py`).  `tpad_stop_duration = some g` records the
extend-by-freezing branch (`tpad=stop_mode=clone:stop_duration=g`, no
`-shortest`); `shortest = true` records the simple-mux branch
(`-map 0:v:0 -map 1:a:0 ... -shortest`). -/
structure CombineCmd where
  video_path : String
  audio_path : String
  video_duration : Rat
  audio_duration : Rat
  tpad_stop_duration : Option Rat
  shortest : Bool
deriving DecidableEq, Repr

/-- `combine_audio_video` (video_combiner.py, lines 276–319): after
measuring both durations, choose the freeze-extend command when the audio
is more than 0.5 s longer than the video, else the `-shortest` mux. -/
def combine_audio_video_cmd (v a : String) (vd ad : Rat) : CombineCmd :=
  if ad > vd + 1/2 then
    { video_path := v, audio_path := a, video_duration := vd, audio_duration := ad,
      tpad_stop_duration := some (ad - vd), shortest := false }
  else
    { video_path := v, audio_path := a, video_duration := vd, audio_duration := ad,
      tpad_stop_duration := none, shortest := true }

/-- Semantics of the combine command's output duration: the tpad branch
pads the video by exactly the gap, so the output lasts the audio
duration; the `-shortest` mux ends with the shorter input stream. -/
def combine_output_duration (c : CombineCmd) : Rat :=
  match c.tpad_stop_duration with
  | some _ => c.audio_duration
  | none => min c.video_duration c.audio_duration

/-- Modelled from the spec's words for comparison (refinement check):
"otherwise mux directly with video length governing truncation of the
longer stream" — i.e. the claimed output duration of the mux branch is
the video's duration. -/
def combine_output_duration_spec (c : CombineCmd) : Rat :=
  match c.tpad_stop_duration with
  | some _ => c.audio_duration
  | none => c.video_duration

/-! ## match_video_to_audio_duration — atempo chain -/

/-- Rounding to four decimal places: the source formats the residual
atempo stage with `f"atempo={remaining_speed:.4f}"`. -/
def round_to_4 (q : Rat) : Rat := (round (q * 10000) : ℤ) / 10000

/-- The `while remaining_speed > 2.0: append 2.0; remaining /= 2` loop of
`match_video_to_audio_duration`, fuel-indexed so that it is structural;
`atempo_filters` supplies fuel proven sufficient. -/
def atempo_up : Nat → Rat → List Rat × Rat
  | 0, r => ([], r)
  | n + 1, r =>
    if 2 < r then
      let p := atempo_up n (r / 2)
      (2 :: p.1, p.2)
    else ([], r)

/-- The `while remaining_speed < 0.5: append 0.5; remaining /= 0.5` loop.
The source's loop diverges for non-positive factors; speed factors are
quotients of positive media durations, so the embedding is restricted to
the positive domain by the `0 < r` guard. -/
def atempo_down : Nat → Rat → List Rat × Rat
  | 0, r => ([], r)
  | n + 1, r =>
    if 0 < r ∧ r < 1/2 then
      let p := atempo_down n (r * 2)
      ((1 : Rat)/2 :: p.1, p.2)
    else ([], r)

/-- Fuel that is always sufficient for both loops (proved below). -/
def atempo_fuel (r : Rat) : Nat := r.num.natAbs + r.den

/-- Residual factor after both bounded-ratio loops. -/
def atempo_remainder (speed : Rat) : Rat :=
  (atempo_down (atempo_fuel (atempo_up (atempo_fuel speed) speed).2)
    (atempo_up (atempo_fuel speed) speed).2).2

/-- The full atempo stage list built by `match_video_to_audio_duration`
(video_combiner.py, lines 115–129): repeated 2.0 stages, repeated 0.5
stages, then the residual stage — formatted to four decimals — unless the
residual is exactly 1. -/
def atempo_filters (speed : Rat) : List Rat :=
  (atempo_up (atempo_fuel speed) speed).1 ++
  (atempo_down (atempo_fuel (atempo_up (atempo_fuel speed) speed).2)
    (atempo_up (atempo_fuel speed) speed).2).1 ++
  (if atempo_remainder speed ≠ 1 then [round_to_4 (atempo_remainder speed)] else [])

/-- Action selected by `match_video_to_audio_duration`
(video_combiner.py, lines 90–129): a plain copy when the durations differ
by less than 0.1 s, otherwise a `setpts` stretch with the inverse factor
and — when the source has an audio stream — the atempo chain. -/
inductive MatchAction where
  | copy
  | stretch (pts_factor : Rat) (audio_stages : Option (List Rat))
deriving DecidableEq, Repr

/-- Decision logic of `match_video_to_audio_duration` given the measured
video duration, the target, and `has_audio_stream`. -/
def match_action (video_duration target_duration : Rat) (source_has_audio : Bool) :
    MatchAction :=
  if |video_duration - target_duration| < 1/10 then
    .copy
  else
    .stretch (1 / (video_duration / target_duration))
      (if source_has_audio then
        some (atempo_filters (video_duration / target_duration))
      else none)

/-- Output duration of the matcher: the copy branch reproduces the input
unchanged; the stretch branch retimes the video onto the target. -/
def match_result_duration (video_duration target_duration : Rat) : Rat :=
  if |video_duration - target_duration| < 1/10 then video_duration
  else target_duration

/-! ## generate_veo_clips — multi-clip chunking arithmetic -/

/-- `VEO_MAX_DURATION` (state_machine.py line 31). -/
def VEO_MAX_DURATION : Rat := 8

/-- `VEO_MIN_DURATION` (state_machine.py line 32). -/
def VEO_MIN_DURATION : Rat := 4

/-- The clip-count / clip-length arithmetic of `generate_veo_clips`
(state_machine.py, lines 284–286):
`num_clips = max(1, ceil(target/8))`,
`clip_duration = min(8, max(4, target/num_clips))`. -/
def generate_veo_clips_plan (target_duration : Rat) : Nat × Rat :=
  let num_clips : Nat := max 1 (⌈target_duration / VEO_MAX_DURATION⌉).toNat
  let clip_duration : Rat :=
    min VEO_MAX_DURATION (max VEO_MIN_DURATION (target_duration / num_clips))
  (num_clips, clip_duration)

/-! ## create_transition_composition — command-level embedding -/

/-- The ffmpeg command built by `create_transition_composition`
(video_combiner.py, lines 436–527): black base, background still,
soundwave overlay, narration audio; fade windows, and the `-t` crop to
the measured audio duration (`out_limit`). -/
structure TransitionCmd where
  background : String
  overlay : String
  audio : String
  width : Nat
  height : Nat
  fps : Nat
  fade_in_dur : Rat
  wave_fade_in : Rat
  fade_out_dur : Rat
  fade_out_start : Rat
  out_limit : Rat
deriving DecidableEq, Repr

/-- `create_transition_composition`'s command, given the measured
duration of the audio file (`duration = get_media_duration(audio_path)`):
1920x1080 @ 30 fps, fades 0.5 / 0.4 / 0.5 s, output cropped to the audio
duration with `-t`. -/
def create_transition_composition_cmd (audio_duration : Rat)
    (background overlay audio : String) : TransitionCmd :=
  { background := background, overlay := overlay, audio := audio,
    width := 1920, height := 1080, fps := 30,
    fade_in_dur := 1/2, wave_fade_in := 2/5, fade_out_dur := 1/2,
    fade_out_start := max 0 (audio_duration - 1/2),
    out_limit := audio_duration }

/-! ## process_segment — the per-segment pipeline -/

/-- External call made by the segment processor, recorded in order. -/
inductive Event where
  | tts
  | extract_frame (src : String)
  | gen_visual (t : SegmentType) (script : Option String)
  | script_preview (t : SegmentType)
  | veo_clips (description : String) (duration : Rat)
  | compose (cmd : TransitionCmd)
  | stretch (video : String) (target : Rat)
  | combine (cmd : CombineCmd)
deriving DecidableEq, Repr

/-- Results of the external collaborators and of the subprocess-based
media steps, as consumed by one `process_segment` run.  `.error` models a
raised exception, faithful to the Python call sites. -/
structure ExtCalls where
  generate_voiceover : VoiceoverConfig → Except String (String × Rat)
  extract_last_frame : String → Except String String
  generate_visual : SegmentType → String → Rat → Option String →
    Except String (Option String × Option String)
  generate_script_preview : SegmentType → String → Rat → Except String String
  get_media_duration : String → Except String Rat
  match_video_to_audio_duration : String → Rat → Except String String
  run_transition_ffmpeg : TransitionCmd → Except String String
  run_combine_ffmpeg : CombineCmd → Except String String
  generate_veo_clips : String → Rat → Except String String
  black_frame_path : String

/-- Outcome of one `process_segment` run: the mutated segment, the trace
of external calls, and whether the run returned normally (`ok = true`) or
re-raised an exception (`ok = false`). -/
structure ProcResult where
  segment : Segment
  events : List Event
  ok : Bool
deriving DecidableEq, Repr

/-- The `except` clause of `process_segment`: mark the segment failed,
record the error, log it, re-raise. -/
def fail_result (s : Segment) (evts : List Event) (msg : String) : ProcResult :=
  { segment := { s with
      status := .failed
      error := some msg
      logs := s.logs ++ ["ERROR: " ++ msg] }
    events := evts
    ok := false }

/-- The Manim soundwave script: `SOUNDWAVE_TEMPLATE.format(audio_path=...)`
(state_machine.py line 173).  Python renders a `None` audio path as the
text `None` inside the script. -/
def soundwave_template_script (audio_path : Option String) : String :=
  "SOUNDWAVE_TEMPLATE audio_path=" ++ audio_path.getD "None"

/-- The last-frame lookup of the transition branch (state_machine.py,
lines 145–153): use the previous segment's combined (or raw) output if
present; a failing extraction is caught and logged, leaving no frame. -/
def transition_last_frame (ext : ExtCalls) (prev : Option Segment) :
    Option String × List Event :=
  match prev with
  | none => (none, [])
  | some p =>
    match p.combined_path.orElse (fun _ => p.video_path) with
    | none => (none, [])
    | some pv =>
      match ext.extract_last_frame pv with
      | .ok f => (some f, [.extract_frame pv])
      | .error _ => (none, [.extract_frame pv])

/-- Steps 4–5 of `process_segment` (state_machine.py, lines 256–266):
combine audio and video when both are present (measuring both durations
inside `combine_audio_video`), else `combined_path = video_path`; then
mark the segment completed. -/
def process_segment_combine (ext : ExtCalls) (s : Segment)
    (audio_path : Option String) (video_path : String) (evts : List Event) :
    ProcResult :=
  match audio_path with
  | none =>
    { segment := { s with
        combined_path := some video_path
        status := .completed
        logs := s.logs ++ ["Segment completed successfully"] }
      events := evts
      ok := true }
  | some a =>
    match ext.get_media_duration video_path with
    | .error e => fail_result s evts e
    | .ok vd =>
      match ext.get_media_duration a with
      | .error e => fail_result s evts e
      | .ok ad =>
        let cmd := combine_audio_video_cmd video_path a vd ad
        match ext.run_combine_ffmpeg cmd with
        | .error e => fail_result s (evts ++ [.combine cmd]) e
        | .ok out =>
          { segment := { s with
              combined_path := some out
              status := .completed
              logs := s.logs ++ ["Segment completed successfully"] }
            events := evts ++ [.combine cmd]
            ok := true }

/-- Step 3 of `process_segment` (state_machine.py, lines 244–254): for
non-transition segments measure the rendered video and, if audio is
present and the mismatch exceeds 0.5 s, time-stretch it; then combine. -/
def process_segment_stretch (ext : ExtCalls) (s : Segment)
    (audio_path : Option String) (duration : Rat) (video_path : String)
    (evts : List Event) : ProcResult :=
  if s.type ≠ .transition then
    match ext.get_media_duration video_path with
    | .error e => fail_result s evts e
    | .ok vd =>
      if audio_path.isSome ∧ |vd - duration| > 1/2 then
        match ext.match_video_to_audio_duration video_path duration with
        | .error e => fail_result s (evts ++ [.stretch video_path duration]) e
        | .ok vp2 =>
          -- the source rebinds only the local `video_path`; the segment's
          -- `video_path` field keeps the unstretched output
          process_segment_combine ext s audio_path vp2
            (evts ++ [.stretch video_path duration])
      else
        process_segment_combine ext s audio_path video_path evts
  else
    process_segment_combine ext s audio_path video_path evts

/-- The `if not video_path: raise` check (state_machine.py, lines
238–242) followed by step 3. -/
def process_segment_check_video (ext : ExtCalls) (s : Segment)
    (audio_path : Option String) (duration : Rat)
    (video_path : Option String) (evts : List Event) : ProcResult :=
  match video_path with
  | none =>
    fail_result s evts "Visual generation failed (script captured for debugging)"
  | some vp =>
    process_segment_stretch ext { s with video_path := some vp }
      audio_path duration vp evts

/-- Step 2 of `process_segment` (state_machine.py, lines 136–236):
dispatch visual generation by segment type.

* transition — try the previous segment's last frame (a failed extraction
  is only a warning), template the soundwave script into the metadata,
  generate the overlay, fall back to a generated black frame, and compose
  (`create_transition_composition` first measures the audio duration, so
  a missing audio path raises there, before the overlay path is used);
* animation — `generate_veo_clips` (its clip arithmetic is
  `generate_veo_clips_plan`; the per-clip renderer calls are abstracted
  into one external call);
* manim / pysim — script preview first (aborting the segment if it
  fails), then full generation with that script. -/
def process_segment_visual (ext : ExtCalls) (s : Segment) (prev : Option Segment)
    (audio_path : Option String) (duration : Rat) (evts : List Event) : ProcResult :=
  match s.type with
  | .transition =>
    let lf := transition_last_frame ext prev
    let evts := evts ++ lf.2
    let script := soundwave_template_script audio_path
    let s := { s with metadata_script := some script }
    match ext.generate_visual .transition s.description duration (some script) with
    | .error e => fail_result s (evts ++ [.gen_visual .transition (some script)]) e
    | .ok (overlay, _) =>
      let evts := evts ++ [.gen_visual .transition (some script)]
      let background := lf.1.getD ext.black_frame_path
      match audio_path with
      | none =>
        -- create_transition_composition calls get_media_duration(None): raises
        fail_result s evts "get_media_duration failed: audio path is None"
      | some a =>
        match ext.get_media_duration a with
        | .error e => fail_result s evts e
        | .ok audio_duration =>
          match overlay with
          | none =>
            -- the ffmpeg argument list would contain None: subprocess raises
            fail_result s evts "ffmpeg composition failed: overlay path is None"
          | some ov =>
            let cmd := create_transition_composition_cmd audio_duration background ov a
            match ext.run_transition_ffmpeg cmd with
            | .error e => fail_result s (evts ++ [.compose cmd]) e
            | .ok out =>
              process_segment_check_video ext s audio_path duration (some out)
                (evts ++ [.compose cmd])
  | .animation =>
    match ext.generate_veo_clips s.description duration with
    | .error e => fail_result s (evts ++ [.veo_clips s.description duration]) e
    | .ok vp =>
      process_segment_check_video ext s audio_path duration (some vp)
        (evts ++ [.veo_clips s.description duration])
  | t =>
    match ext.generate_script_preview t s.description duration with
    | .error e => fail_result s (evts ++ [.script_preview t]) e
    | .ok script =>
      let s := { s with generated_script := some script }
      match ext.generate_visual t s.description duration (some script) with
      | .error e => fail_result s (evts ++ [.script_preview t, .gen_visual t (some script)]) e
      | .ok (vp, _) =>
        process_segment_check_video ext s audio_path duration vp
          (evts ++ [.script_preview t, .gen_visual t (some script)])

/-- `process_segment` (state_machine.py, lines 100–274): mark processing,
generate the voiceover (default duration 5.0 s with no audio when the
segment has none), then run the visual / stretch / combine steps.  Any
raised step lands in `fail_result` (the `except` clause). -/
def process_segment (ext : ExtCalls) (seg : Segment) (prev : Option Segment) :
    ProcResult :=
  let s := { seg with
    status := .processing
    logs := seg.logs ++ ["Starting segment processing"] }
  match s.voiceover with
  | some vo =>
    match ext.generate_voiceover vo with
    | .error e => fail_result s [.tts] e
    | .ok (apath, d) =>
      process_segment_visual ext
        { s with audio_path := some apath, duration_seconds := some d }
        prev (some apath) d [.tts]
  | none =>
    process_segment_visual ext
      { s with audio_path := none, duration_seconds := some (5 : Rat) }
      prev none 5 []

/-! ## serverless/src/video_pipeline.py — transition branch -/

/-- The TTS step and the transition branch of
`VideoPipeline._process_segment` (serverless/src/video_pipeline.py,
lines 238–375).  A transition without audio raises
"Transition segment must have voiceover audio" before any frame
extraction or visual generation.  With audio present it extracts (or
synthesizes) the background frame, renders the soundwave overlay and
composes at 1080x1920 cropped to the TTS duration, marking the result as
already combined.  A raise propagates to the caller without mutating the
segment (`ok = false`).  The non-transition branches of the source
function are not modelled here and return the segment unchanged. -/
def serverless_transition_slice (ext : ExtCalls) (seg : Segment)
    (prev : Option Segment) : ProcResult :=
  let audio_step : Except String (Option String × Rat × List Event) :=
    match seg.voiceover with
    | none => .ok (none, 5, [])
    | some vo =>
      match ext.generate_voiceover vo with
      | .error e => .error e
      | .ok (apath, d) => .ok (some apath, d, [Event.tts])
  match audio_step with
  | .error _ => { segment := seg, events := [], ok := false }
  | .ok (audio_path, duration, evts) =>
    if seg.type = .transition then
      match audio_path with
      | none =>
        -- raise RuntimeError("Transition segment must have voiceover audio")
        { segment := seg, events := evts, ok := false }
      | some a =>
        let lf := transition_last_frame ext prev
        let evts := evts ++ lf.2
        let background := lf.1.getD ext.black_frame_path
        let script := soundwave_template_script (some a)
        match ext.generate_visual .transition seg.description duration (some script) with
        | .error _ =>
          { segment := seg, events := evts ++ [.gen_visual .transition (some script)],
            ok := false }
        | .ok (overlay, _) =>
          let evts := evts ++ [.gen_visual .transition (some script)]
          match overlay with
          | none => { segment := seg, events := evts, ok := false }
          | some ov =>
            let cmd : TransitionCmd :=
              { background := background, overlay := ov, audio := a,
                width := 1080, height := 1920, fps := 30,
                fade_in_dur := 1/2, wave_fade_in := 2/5, fade_out_dur := 1/2,
                fade_out_start := max 0 (duration - 1/2),
                out_limit := duration }
            match ext.run_transition_ffmpeg cmd with
            | .error _ =>
              { segment := seg, events := evts ++ [.compose cmd], ok := false }
            | .ok out =>
              { segment := { seg with
                  combined_path := some out
                  video_path := some out }
                events := evts ++ [.compose cmd]
                ok := true }
    else
      { segment := seg, events := evts, ok := true }

/-! ## run_generation_job — the main segment loop -/

/-- The final-video path `f"/videos/combined/final_{job.id}.mp4"`
(state_machine.py line 505). -/
def final_output_path (job_id : String) : String :=
  "/videos/combined/final_" ++ job_id ++ ".mp4"

/-- The list handed to final assembly (state_machine.py, lines 498–502):
each segment's combined (or raw visual) path, segments sorted by
ascending `order`, segments without any path dropped. -/
def job_video_paths (segments : List Segment) : List String :=
  (segments.mergeSort (fun a b => a.order ≤ b.order)).filterMap
    (fun s => s.combined_path.orElse (fun _ => s.video_path))

/-- The `for i, segment in enumerate(job.segments)` loop of
`run_generation_job` (state_machine.py, lines 466–486), with the
per-segment processing abstracted into `proc : segment → previous
completed segment → (mutated segment, returned normally?)` —
`process_segment` instantiates it as `process_segment_proc`.  Returns the
mutated segment list, the last value written to
`current_segment_index`, and whether a failure broke the loop.  The
`if job.status == "paused": break` check at the top of the source loop
can only fire through a concurrent pause request, which the sequential
embedding does not model; within one run the status stays `running`
until the loop itself pauses it. -/
def run_generation_job_loop (proc : Segment → Option Segment → Segment × Bool) :
    List Segment → Option Segment → Nat → Nat → List Segment × Nat × Bool
  | [], _, _, cur => ([], cur, false)
  | s :: rest, prev, idx, _ =>
    let r := proc s prev
    if r.2 then
      let t := run_generation_job_loop proc rest (some r.1) (idx + 1) idx
      (r.1 :: t.1, t.2.1, t.2.2)
    else
      (r.1 :: rest, idx, true)

/-- `process_segment` as a loop processor. -/
def process_segment_proc (ext : ExtCalls) (s : Segment) (prev : Option Segment) :
    Segment × Bool :=
  let r := process_segment ext s prev
  (r.segment, r.ok)

/-- The tail of `run_generation_job` (state_machine.py, lines 488–527):
when every segment ended completed, assemble the final video — a single
path is copied, several are concatenated, an empty list skips assembly —
with any assembly failure logged and swallowed, then mark the job
completed.  `assemble_ok` abstracts the `shutil.copy` /
`concatenate_final_video` call succeeding on the given path list. -/
def run_generation_job_finish (assemble_ok : List String → Bool) (job2 : Job) :
    Job :=
  if job2.segments.all (fun s => s.status = SegmentStatus.completed) then
    { (if (job_video_paths job2.segments).isEmpty then job2
       else if assemble_ok (job_video_paths job2.segments) then
         { job2 with final_video_path := some (final_output_path job2.id) }
       else job2) with
      status := JobStatus.completed }
  else job2

/-- `run_generation_job` (state_machine.py, lines 455–528): set status
running, run the segment loop from index 0 (pausing on the first
failure), then run the final-assembly tail. -/
def run_generation_job (proc : Segment → Option Segment → Segment × Bool)
    (assemble_ok : List String → Bool) (job : Job) : Job :=
  run_generation_job_finish assemble_ok
    { job with
      segments :=
        (run_generation_job_loop proc job.segments none 0
          job.current_segment_index).1
      current_segment_index :=
        (run_generation_job_loop proc job.segments none 0
          job.current_segment_index).2.1
      status :=
        if (run_generation_job_loop proc job.segments none 0
          job.current_segment_index).2.2 then JobStatus.paused
        else JobStatus.running }

/-! ## retry_segment -/

/-- The synchronous part of `retry_segment` (state_machine.py, lines
555–591): find the segment by id, reset it to processing with cleared
error/paths and a fresh log line, and return it immediately.  The
background `_process_segment_retry` task it spawns is concurrent
behaviour outside this sequential embedding.  In-place mutation of the
found segment is modelled as replacing it at its position (segment ids
are unique per job, matching the source's id-keyed lookup). -/
def retry_segment (job : Job) (segment_id : String) :
    Except String (Job × Segment) :=
  match job.segments.find? (fun s => s.id = segment_id) with
  | none => .error ("Segment not found: " ++ segment_id)
  | some seg =>
    let seg2 := { seg with
      status := SegmentStatus.processing
      error := none
      video_path := none
      audio_path := none
      combined_path := none
      logs := ["Retry initiated - starting segment processing"] }
    .ok ({ job with
            segments := job.segments.map
              (fun s => if s.id = segment_id then seg2 else s) },
         seg2)

/-! ## delete_segment (main.py) -/

/-- The `for i, segment in enumerate(job.segments): segment.order = i`
renumbering pass of the delete endpoint, with an explicit start index. -/
def renumber_from (i : Nat) : List Segment → List Segment
  | [] => []
  | s :: rest => { s with order := i } :: renumber_from (i + 1) rest

/-- `delete_segment` (main.py, lines 132–147): drop every segment with
the given id, then renumber the survivors 0.. in list order. -/
def delete_segment (job : Job) (segment_id : String) : Job :=
  { job with
    segments := renumber_from 0 (job.segments.filter (fun s => s.id ≠ segment_id)) }

/-! ## Concrete fixtures for witnesses and counterexamples -/

/-- A sample collaborator record in which every external call succeeds
with fixed outputs; media durations are 4 s for the voiceover file and
5 s for everything else. -/
def ext0 : ExtCalls :=
  { generate_voiceover := fun _ => .ok ("/videos/audio/vo.wav", 4)
    extract_last_frame := fun p => .ok (p ++ ".last.png")
    generate_visual := fun _ _ _ _ => .ok (some "/videos/overlay.mp4", none)
    generate_script_preview := fun _ _ _ => .ok "print(1)"
    get_media_duration := fun p =>
      if p = "/videos/audio/vo.wav" then .ok 4 else .ok 5
    match_video_to_audio_duration := fun p _ => .ok (p ++ ".stretched.mp4")
    run_transition_ffmpeg := fun _ => .ok "/videos/combined/transition.mp4"
    run_combine_ffmpeg := fun _ => .ok "/videos/combined/combined.mp4"
    generate_veo_clips := fun _ _ => .ok "/videos/veo.mp4"
    black_frame_path := "/videos/black_frame.png" }

/-- A pysim segment with no voiceover. -/
def seg_pysim : Segment :=
  { id := "s1", order := 0, type := .pysim, title := "t1", description := "d1" }

/-- A transition segment with no voiceover (hence no audio). -/
def seg_transition_no_audio : Segment :=
  { id := "s2", order := 1, type := .transition, title := "t2", description := "d2" }

/-- A transition segment with a voiceover. -/
def seg_transition_audio : Segment :=
  { id := "s3", order := 1, type := .transition, title := "t3", description := "d3"
    voiceover := some { text := "hello", voice := "Schedar", speed := 27/20 } }

/-- Fixture segments for job-level witnesses. -/
def seg_a : Segment :=
  { id := "a", order := 0, type := .manim, title := "A", description := "d" }

/-- Fixture segment at order 1. -/
def seg_b : Segment :=
  { id := "b", order := 1, type := .pysim, title := "B", description := "d" }

/-- Fixture segment at order 2. -/
def seg_c : Segment :=
  { id := "c", order := 2, type := .manim, title := "C", description := "d" }

/-- A three-segment fixture job. -/
def job3 : Job := { id := "j", segments := [seg_a, seg_b, seg_c] }

/-- A processor that always succeeds, marking the segment completed with
a combined output path. -/
def proc_ok (s : Segment) (_ : Option Segment) : Segment × Bool :=
  ({ s with
      status := SegmentStatus.completed
      combined_path := some ("/videos/combined/c_" ++ s.id ++ ".mp4") }, true)

/-- A processor that fails exactly on the segment with id "b". -/
def proc_fail_b (s : Segment) (p : Option Segment) : Segment × Bool :=
  if s.id = "b" then
    ({ s with status := SegmentStatus.failed, error := some "boom" }, false)
  else proc_ok s p

/-- An assembler stub that always succeeds. -/
def assemble_always : List String → Bool := fun _ => true

/-- Events that perform visual or overlay generation or composition. -/
def is_visual_event : Event → Bool
  | .gen_visual _ _ => true
  | .veo_clips _ _ => true
  | .compose _ => true
  | _ => false

/-- Events that delegate to the transition composer. -/
def is_compose_event : Event → Bool
  | .compose _ => true
  | _ => false

/-! # Theorems -/

/-- Claim C7: when the source and target durations differ by less than
0.1 s, `match_video_to_audio_duration` performs a plain copy (no speed
change, no filters); the copy's output has the source's duration, so
re-invoking the matcher on its own output with the same target is again
a no-op copy. -/
theorem claim_C7 (Ds Dt : Rat) (has_audio : Bool) (h : |Ds - Dt| < 1/10) :
    match_action Ds Dt has_audio = MatchAction.copy ∧
    match_result_duration Ds Dt = Ds ∧
    match_action (match_result_duration Ds Dt) Dt has_audio = MatchAction.copy := by
  have h2 : match_result_duration Ds Dt = Ds := by
    unfold match_result_duration
    rw [if_pos h]
  refine ⟨?_, h2, ?_⟩
  · unfold match_action
    rw [if_pos h]
  · rw [h2]
    unfold match_action
    rw [if_pos h]

/-- Witness for C7 at the spec's instance: source 5.02 s, target 5.0 s. -/
theorem claim_C7_witness :
    |(502 : Rat)/100 - 5| < 1/10 ∧
    (match_action (502/100) 5 true = MatchAction.copy ∧
     match_result_duration (502/100) 5 = 502/100 ∧
     match_action (match_result_duration (502/100) 5) 5 true = MatchAction.copy) :=
  ⟨by rw [abs_lt]; norm_num, claim_C7 (502/100) 5 true (by rw [abs_lt]; norm_num)⟩

/-- Claim C8: for every positive target duration, `generate_veo_clips`
computes `num_clips = ceil(target / 8)` and
`clip_duration = clamp(target / num_clips, 4, 8)`, the clip length always
lying within `[4, 8]`; in particular a 20 s target yields exactly 3
clips. -/
theorem claim_C8 (t : Rat) (ht : 0 < t) :
    (((generate_veo_clips_plan t).1 : ℤ) = ⌈t / VEO_MAX_DURATION⌉) ∧
    (generate_veo_clips_plan t).2 =
      min VEO_MAX_DURATION
        (max VEO_MIN_DURATION (t / ((generate_veo_clips_plan t).1 : Rat))) ∧
    VEO_MIN_DURATION ≤ (generate_veo_clips_plan t).2 ∧
    (generate_veo_clips_plan t).2 ≤ VEO_MAX_DURATION ∧
    (generate_veo_clips_plan 20).1 = 3 := by
  have hpos : (0 : Rat) < t / VEO_MAX_DURATION := by
    unfold VEO_MAX_DURATION; positivity
  have hceil : 0 < ⌈t / VEO_MAX_DURATION⌉ := Int.ceil_pos.mpr hpos
  have hmax : max 1 (⌈t / VEO_MAX_DURATION⌉).toNat = (⌈t / VEO_MAX_DURATION⌉).toNat := by
    have : 1 ≤ (⌈t / VEO_MAX_DURATION⌉).toNat := by omega
    omega
  have hc20 : ⌈(20 : Rat) / VEO_MAX_DURATION⌉ = 3 := by
    rw [Int.ceil_eq_iff]
    unfold VEO_MAX_DURATION
    norm_num
  refine ⟨?_, ?_, ?_, ?_, ?_⟩
  · simp only [generate_veo_clips_plan, hmax]
    omega
  · simp only [generate_veo_clips_plan, hmax]
  · simp only [generate_veo_clips_plan]
    exact le_min (by unfold VEO_MIN_DURATION VEO_MAX_DURATION; norm_num) (le_max_left _ _)
  · simp only [generate_veo_clips_plan]
    exact min_le_left _ _
  · simp only [generate_veo_clips_plan, hc20]
    rfl

/-- Witness for C8 at the spec's instance: target 20 s. -/
theorem claim_C8_witness :
    (0 : Rat) < 20 ∧
    ((((generate_veo_clips_plan 20).1 : ℤ) = ⌈(20 : Rat) / VEO_MAX_DURATION⌉) ∧
     (generate_veo_clips_plan 20).2 =
       min VEO_MAX_DURATION
         (max VEO_MIN_DURATION ((20 : Rat) / ((generate_veo_clips_plan 20).1 : Rat))) ∧
     VEO_MIN_DURATION ≤ (generate_veo_clips_plan 20).2 ∧
     (generate_veo_clips_plan 20).2 ≤ VEO_MAX_DURATION ∧
     (generate_veo_clips_plan 20).1 = 3) :=
  ⟨by norm_num, claim_C8 20 (by norm_num)⟩

/-- Claim C4 (amended): with audio present, if the audio is more than
0.5 s longer than the video the combine command freezes the last frame
for exactly the gap (tpad of `audio − video`, no `-shortest`) so the
output lasts the audio's duration; otherwise the streams are muxed with
`-shortest`, the output ending with the shorter stream (`min`); and a
segment processed with no audio gets `combined_path = video_path` with no
media operation (no combine or stretch event). -/
theorem claim_C4 (v a : String) (vd ad : Rat) (ext : ExtCalls) (s : Segment)
    (duration vd2 : Rat) (vp : String) (evts : List Event)
    (htype : s.type ≠ SegmentType.transition)
    (hdur : ext.get_media_duration vp = .ok vd2) :
    (ad > vd + 1/2 →
      combine_audio_video_cmd v a vd ad =
        { video_path := v, audio_path := a, video_duration := vd,
          audio_duration := ad, tpad_stop_duration := some (ad - vd),
          shortest := false } ∧
      combine_output_duration (combine_audio_video_cmd v a vd ad) = ad) ∧
    (¬ ad > vd + 1/2 →
      (combine_audio_video_cmd v a vd ad).tpad_stop_duration = none ∧
      (combine_audio_video_cmd v a vd ad).shortest = true ∧
      combine_output_duration (combine_audio_video_cmd v a vd ad) = min vd ad) ∧
    ((process_segment_check_video ext s none duration (some vp) evts).ok = true ∧
     (process_segment_check_video ext s none duration (some vp) evts).segment.combined_path
       = some vp ∧
     (process_segment_check_video ext s none duration (some vp) evts).segment.video_path
       = some vp ∧
     (process_segment_check_video ext s none duration (some vp) evts).events = evts) := by
  refine ⟨?_, ?_, ?_⟩
  · intro h
    unfold combine_audio_video_cmd combine_output_duration
    rw [if_pos h]
    exact ⟨rfl, rfl⟩
  · intro h
    unfold combine_audio_video_cmd combine_output_duration
    rw [if_neg h]
    exact ⟨rfl, rfl, rfl⟩
  · simp [process_segment_check_video, process_segment_stretch,
      process_segment_combine, htype, hdur]

/-- Counterexample to C4 as stated: with video 6 s and audio 4 s the
guard sends us to the mux branch, whose `-shortest` flag ends the output
at the 4 s audio stream — not at the video's 6 s as "the video's length
governing truncation of the longer stream" would demand. -/
theorem claim_C4_counterexample :
    ¬ ((4 : Rat) > 6 + 1/2) ∧
    (combine_audio_video_cmd "v.mp4" "a.wav" 6 4).shortest = true ∧
    combine_output_duration (combine_audio_video_cmd "v.mp4" "a.wav" 6 4) = 4 ∧
    combine_output_duration_spec (combine_audio_video_cmd "v.mp4" "a.wav" 6 4) = 6 ∧
    combine_output_duration (combine_audio_video_cmd "v.mp4" "a.wav" 6 4) ≠
      combine_output_duration_spec (combine_audio_video_cmd "v.mp4" "a.wav" 6 4) := by
  have hlt : ¬ ((4 : Rat) > 6 + 1/2) := by norm_num
  refine ⟨hlt, ?_, ?_, ?_, ?_⟩ <;>
    norm_num [combine_audio_video_cmd, combine_output_duration,
      combine_output_duration_spec, hlt]

/-- Witness for the amended C4: video 6 s / audio 4 s on the combine
side, and the fixture pysim segment processed without audio. -/
theorem claim_C4_witness :
    (seg_pysim.type ≠ SegmentType.transition ∧
     ext0.get_media_duration "v.mp4" = .ok 5) ∧
    (((4 : Rat) > 6 + 1/2 →
      combine_audio_video_cmd "v.mp4" "a.wav" 6 4 =
        { video_path := "v.mp4", audio_path := "a.wav", video_duration := 6,
          audio_duration := 4, tpad_stop_duration := some (4 - 6),
          shortest := false } ∧
      combine_output_duration (combine_audio_video_cmd "v.mp4" "a.wav" 6 4) = 4) ∧
    (¬ (4 : Rat) > 6 + 1/2 →
      (combine_audio_video_cmd "v.mp4" "a.wav" 6 4).tpad_stop_duration = none ∧
      (combine_audio_video_cmd "v.mp4" "a.wav" 6 4).shortest = true ∧
      combine_output_duration (combine_audio_video_cmd "v.mp4" "a.wav" 6 4) = min 6 4) ∧
    ((process_segment_check_video ext0 seg_pysim none 5 (some "v.mp4") []).ok = true ∧
     (process_segment_check_video ext0 seg_pysim none 5 (some "v.mp4") []).segment.combined_path
       = some "v.mp4" ∧
     (process_segment_check_video ext0 seg_pysim none 5 (some "v.mp4") []).segment.video_path
       = some "v.mp4" ∧
     (process_segment_check_video ext0 seg_pysim none 5 (some "v.mp4") []).events = [])) :=
  ⟨⟨by simp [seg_pysim], by simp [ext0]⟩,
   claim_C4 "v.mp4" "a.wav" 6 4 ext0 seg_pysim 5 5 "v.mp4" []
     (by simp [seg_pysim]) (by simp [ext0])⟩

/-- Claim C2: `retry_segment` on a present segment id returns
immediately with exactly that segment reset to processing (error and
paths cleared, logs reset to the single retry line), leaves
`current_segment_index` and the job status untouched, and leaves every
other segment — in particular its `order` and `status` — unchanged. -/
theorem claim_C2 (job : Job) (sid : String)
    (hmem : sid ∈ job.segments.map (fun s => s.id)) :
    ∃ job2 seg2,
      retry_segment job sid = .ok (job2, seg2) ∧
      seg2.status = SegmentStatus.processing ∧
      seg2.error = none ∧
      seg2.video_path = none ∧
      seg2.audio_path = none ∧
      seg2.combined_path = none ∧
      seg2.logs = ["Retry initiated - starting segment processing"] ∧
      seg2.id = sid ∧
      job2.current_segment_index = job.current_segment_index ∧
      job2.status = job.status ∧
      job2.segments.length = job.segments.length ∧
      (∀ i (h1 : i < job.segments.length) (h2 : i < job2.segments.length),
        (job.segments.get ⟨i, h1⟩).id ≠ sid →
          job2.segments.get ⟨i, h2⟩ = job.segments.get ⟨i, h1⟩) ∧
      (∀ i (h1 : i < job.segments.length) (h2 : i < job2.segments.length),
        (job.segments.get ⟨i, h1⟩).id = sid →
          job2.segments.get ⟨i, h2⟩ = seg2) := by
  obtain ⟨s0, hs0, hs0id⟩ := List.mem_map.mp hmem
  have hsome : (job.segments.find? (fun s => s.id = sid)).isSome := by
    rw [List.find?_isSome]
    exact ⟨s0, hs0, by simp [hs0id]⟩
  obtain ⟨seg, hfind⟩ := Option.isSome_iff_exists.mp hsome
  have hsegid : seg.id = sid := by
    have := List.find?_some hfind
    simpa using this
  refine ⟨{ job with segments := job.segments.map (fun s =>
      if s.id = sid then
        { seg with
          status := SegmentStatus.processing
          error := none
          video_path := none
          audio_path := none
          combined_path := none
          logs := ["Retry initiated - starting segment processing"] }
      else s) },
    { seg with
      status := SegmentStatus.processing
      error := none
      video_path := none
      audio_path := none
      combined_path := none
      logs := ["Retry initiated - starting segment processing"] },
    ?_, rfl, rfl, rfl, rfl, rfl, rfl, hsegid, rfl, rfl, ?_, ?_, ?_⟩
  · unfold retry_segment
    rw [hfind]
  · simp
  · intro i h1 h2 hne
    simp only [List.get_eq_getElem, List.getElem_map]
    rw [if_neg (by simpa using hne)]
  · intro i h1 h2 heq
    simp only [List.get_eq_getElem, List.getElem_map]
    rw [if_pos (by simpa using heq)]

/-- Witness for C2: a three-segment job, retrying the middle segment. -/
theorem claim_C2_witness :
    (("b" : String) ∈ (Job.mk "j" [
        { id := "a", order := 0, type := .manim, title := "A", description := "da",
          status := SegmentStatus.completed },
        { id := "b", order := 1, type := .pysim, title := "B", description := "db",
          status := SegmentStatus.failed, error := some "boom" },
        { id := "c", order := 2, type := .manim, title := "C", description := "dc" }]
        1 JobStatus.paused none none).segments.map (fun s => s.id)) ∧
    (∃ job2 seg2,
      retry_segment (Job.mk "j" [
        { id := "a", order := 0, type := .manim, title := "A", description := "da",
          status := SegmentStatus.completed },
        { id := "b", order := 1, type := .pysim, title := "B", description := "db",
          status := SegmentStatus.failed, error := some "boom" },
        { id := "c", order := 2, type := .manim, title := "C", description := "dc" }]
        1 JobStatus.paused none none) "b" = .ok (job2, seg2) ∧
      seg2.status = SegmentStatus.processing ∧
      seg2.error = none ∧
      seg2.video_path = none ∧
      seg2.audio_path = none ∧
      seg2.combined_path = none ∧
      seg2.logs = ["Retry initiated - starting segment processing"] ∧
      seg2.id = "b" ∧
      job2.current_segment_index = 1 ∧
      job2.status = JobStatus.paused ∧
      job2.segments.length = 3 ∧
      (∀ i (h1 : i < 3) (h2 : i < job2.segments.length),
        ((Job.mk "j" [
          { id := "a", order := 0, type := .manim, title := "A", description := "da",
            status := SegmentStatus.completed },
          { id := "b", order := 1, type := .pysim, title := "B", description := "db",
            status := SegmentStatus.failed, error := some "boom" },
          { id := "c", order := 2, type := .manim, title := "C", description := "dc" }]
          1 JobStatus.paused none none).segments.get ⟨i, h1⟩).id ≠ "b" →
          job2.segments.get ⟨i, h2⟩ = (Job.mk "j" [
            { id := "a", order := 0, type := .manim, title := "A", description := "da",
              status := SegmentStatus.completed },
            { id := "b", order := 1, type := .pysim, title := "B", description := "db",
              status := SegmentStatus.failed, error := some "boom" },
            { id := "c", order := 2, type := .manim, title := "C", description := "dc" }]
            1 JobStatus.paused none none).segments.get ⟨i, h1⟩)) := by
  have h := claim_C2 (Job.mk "j" [
    { id := "a", order := 0, type := .manim, title := "A", description := "da",
      status := SegmentStatus.completed },
    { id := "b", order := 1, type := .pysim, title := "B", description := "db",
      status := SegmentStatus.failed, error := some "boom" },
    { id := "c", order := 2, type := .manim, title := "C", description := "dc" }]
    1 JobStatus.paused none none) "b" (by simp)
  obtain ⟨job2, seg2, h1, h2, h3, h4, h5, h6, h7, h8, h9, h10, h11, h12, h13⟩ := h
  exact ⟨by simp, job2, seg2, h1, h2, h3, h4, h5, h6, h7, h8, h9, h10, h11, h12⟩

lemma renumber_from_length (i : Nat) (l : List Segment) :
    (renumber_from i l).length = l.length := by
  induction l generalizing i with
  | nil => rfl
  | cons s rest ih => simp [renumber_from, ih]

lemma renumber_from_order (l : List Segment) :
    ∀ (i j : Nat) (h : j < (renumber_from i l).length),
      ((renumber_from i l).get ⟨j, h⟩).order = i + j := by
  induction l with
  | nil => intro i j h; simp [renumber_from] at h
  | cons s rest ih =>
    intro i j h
    match j with
    | 0 => simp [renumber_from]
    | j' + 1 =>
      have := ih (i + 1) j' (by
        have := h
        simpa [renumber_from] using this)
      simp only [renumber_from, List.get_cons_succ] at this ⊢
      omega

lemma renumber_from_map_id (i : Nat) (l : List Segment) :
    (renumber_from i l).map (fun s => s.id) = l.map (fun s => s.id) := by
  induction l generalizing i with
  | nil => rfl
  | cons s rest ih => simp [renumber_from, ih]

lemma filter_ne_id_length (sid : String) :
    ∀ (l : List Segment), (l.map (fun s => s.id)).Nodup →
      sid ∈ l.map (fun s => s.id) →
      (l.filter (fun s => s.id ≠ sid)).length + 1 = l.length := by
  intro l
  induction l with
  | nil => intro _ hmem; simp at hmem
  | cons s rest ih =>
    intro hnodup hmem
    by_cases hs : s.id = sid
    · have hrest : ∀ x ∈ rest, x.id ≠ sid := by
        intro x hx hxid
        have : s.id ∈ rest.map (fun t => t.id) :=
          List.mem_map.mpr ⟨x, hx, by rw [hxid, hs]⟩
        exact (List.nodup_cons.mp (by simpa using hnodup)).1 this
      have hfe : rest.filter (fun x => x.id ≠ sid) = rest :=
        List.filter_eq_self.mpr (fun x hx => by simpa using hrest x hx)
      simp only [List.filter_cons, List.length_cons]
      rw [if_neg (by simp [hs]), hfe]
    · have hmem' : sid ∈ rest.map (fun t => t.id) := by
        rcases List.mem_map.mp hmem with ⟨x, hx, hxid⟩
        rcases List.mem_cons.mp hx with hx1 | hx1
        · exact absurd (hx1 ▸ hxid) hs
        · exact List.mem_map.mpr ⟨x, hx1, hxid⟩
      have hnodup' : (rest.map (fun t => t.id)).Nodup :=
        (List.nodup_cons.mp (by simpa using hnodup)).2
      have := ih hnodup' hmem'
      simp only [List.filter_cons, List.length_cons]
      rw [if_pos (by simpa using hs)]
      simp only [List.length_cons]
      omega

/-- Claim C10: deleting one segment (by id) from a job whose segments
carry a contiguous 0..n−1 order sequence leaves the survivors renumbered
to a contiguous 0..n−2 sequence, in their original relative order. -/
theorem claim_C10 (job : Job) (sid : String)
    (_horders : ∀ i (h : i < job.segments.length),
      (job.segments.get ⟨i, h⟩).order = i)
    (hnodup : (job.segments.map (fun s => s.id)).Nodup)
    (hmem : sid ∈ job.segments.map (fun s => s.id)) :
    (delete_segment job sid).segments.length + 1 = job.segments.length ∧
    (∀ i (h : i < (delete_segment job sid).segments.length),
      ((delete_segment job sid).segments.get ⟨i, h⟩).order = i) ∧
    (delete_segment job sid).segments.map (fun s => s.id) =
      (job.segments.filter (fun s => s.id ≠ sid)).map (fun s => s.id) := by
  refine ⟨?_, ?_, ?_⟩
  · show (renumber_from 0 (job.segments.filter (fun s => s.id ≠ sid))).length + 1
        = job.segments.length
    rw [renumber_from_length]
    exact filter_ne_id_length sid job.segments hnodup hmem
  · intro i h
    show ((renumber_from 0 (job.segments.filter (fun s => s.id ≠ sid))).get
      ⟨i, h⟩).order = i
    have := renumber_from_order (job.segments.filter (fun s => s.id ≠ sid)) 0 i h
    simpa using this
  · exact renumber_from_map_id 0 _

/-- Witness for C10 at the spec's instance: a five-segment job, deleting
the segment with order 2; survivors are renumbered 0..3. -/
theorem claim_C10_witness :
    ((∀ i (h : i < (Job.mk "j" [
        { id := "a", order := 0, type := .manim, title := "A", description := "d" },
        { id := "b", order := 1, type := .pysim, title := "B", description := "d" },
        { id := "c", order := 2, type := .manim, title := "C", description := "d" },
        { id := "d", order := 3, type := .pysim, title := "D", description := "d" },
        { id := "e", order := 4, type := .manim, title := "E", description := "d" }]
        0 JobStatus.idle none none).segments.length),
      ((Job.mk "j" [
        { id := "a", order := 0, type := .manim, title := "A", description := "d" },
        { id := "b", order := 1, type := .pysim, title := "B", description := "d" },
        { id := "c", order := 2, type := .manim, title := "C", description := "d" },
        { id := "d", order := 3, type := .pysim, title := "D", description := "d" },
        { id := "e", order := 4, type := .manim, title := "E", description := "d" }]
        0 JobStatus.idle none none).segments.get ⟨i, h⟩).order = i)) ∧
    ((delete_segment (Job.mk "j" [
        { id := "a", order := 0, type := .manim, title := "A", description := "d" },
        { id := "b", order := 1, type := .pysim, title := "B", description := "d" },
        { id := "c", order := 2, type := .manim, title := "C", description := "d" },
        { id := "d", order := 3, type := .pysim, title := "D", description := "d" },
        { id := "e", order := 4, type := .manim, title := "E", description := "d" }]
        0 JobStatus.idle none none) "c").segments.length + 1 = 5 ∧
     (∀ i (h : i < (delete_segment (Job.mk "j" [
        { id := "a", order := 0, type := .manim, title := "A", description := "d" },
        { id := "b", order := 1, type := .pysim, title := "B", description := "d" },
        { id := "c", order := 2, type := .manim, title := "C", description := "d" },
        { id := "d", order := 3, type := .pysim, title := "D", description := "d" },
        { id := "e", order := 4, type := .manim, title := "E", description := "d" }]
        0 JobStatus.idle none none) "c").segments.length),
      ((delete_segment (Job.mk "j" [
        { id := "a", order := 0, type := .manim, title := "A", description := "d" },
        { id := "b", order := 1, type := .pysim, title := "B", description := "d" },
        { id := "c", order := 2, type := .manim, title := "C", description := "d" },
        { id := "d", order := 3, type := .pysim, title := "D", description := "d" },
        { id := "e", order := 4, type := .manim, title := "E", description := "d" }]
        0 JobStatus.idle none none) "c").segments.get ⟨i, h⟩).order = i) ∧
     (delete_segment (Job.mk "j" [
        { id := "a", order := 0, type := .manim, title := "A", description := "d" },
        { id := "b", order := 1, type := .pysim, title := "B", description := "d" },
        { id := "c", order := 2, type := .manim, title := "C", description := "d" },
        { id := "d", order := 3, type := .pysim, title := "D", description := "d" },
        { id := "e", order := 4, type := .manim, title := "E", description := "d" }]
        0 JobStatus.idle none none) "c").segments.map (fun s => s.id) =
      ((Job.mk "j" [
        { id := "a", order := 0, type := .manim, title := "A", description := "d" },
        { id := "b", order := 1, type := .pysim, title := "B", description := "d" },
        { id := "c", order := 2, type := .manim, title := "C", description := "d" },
        { id := "d", order := 3, type := .pysim, title := "D", description := "d" },
        { id := "e", order := 4, type := .manim, title := "E", description := "d" }]
        0 JobStatus.idle none none).segments.filter (fun s => s.id ≠ "c")).map
          (fun s => s.id)) := by
  refine ⟨?_, claim_C10 _ "c" ?_ (by simp) (by simp)⟩ <;>
  · intro i h
    have h5 : i < 5 := h
    interval_cases i <;> rfl

lemma atempo_up_prod (n : Nat) : ∀ r : Rat,
    (atempo_up n r).1.prod * (atempo_up n r).2 = r := by
  induction n with
  | zero => intro r; simp [atempo_up]
  | succ n ih =>
    intro r
    by_cases h : 2 < r
    · simp only [atempo_up, if_pos h, List.prod_cons]
      have := ih (r / 2)
      field_simp at this ⊢
      linarith
    · simp [atempo_up, if_neg h]

lemma atempo_up_mem (n : Nat) : ∀ (r x : Rat), x ∈ (atempo_up n r).1 → x = 2 := by
  induction n with
  | zero => intro r x hx; simp [atempo_up] at hx
  | succ n ih =>
    intro r x hx
    by_cases h : 2 < r
    · simp only [atempo_up, if_pos h, List.mem_cons] at hx
      rcases hx with hx | hx
      · exact hx
      · exact ih (r / 2) x hx
    · simp [atempo_up, if_neg h] at hx

lemma atempo_up_le (n : Nat) : ∀ r : Rat, r ≤ 2 * 2 ^ n → (atempo_up n r).2 ≤ 2 := by
  induction n with
  | zero => intro r h; simpa [atempo_up] using h
  | succ n ih =>
    intro r h
    by_cases h2 : 2 < r
    · simp only [atempo_up, if_pos h2]
      refine ih (r / 2) ?_
      rw [pow_succ] at h
      linarith
    · simp only [atempo_up, if_neg h2]
      linarith [not_lt.mp h2]

lemma atempo_up_pos (n : Nat) : ∀ r : Rat, 0 < r → 0 < (atempo_up n r).2 := by
  induction n with
  | zero => intro r h; simpa [atempo_up] using h
  | succ n ih =>
    intro r h
    by_cases h2 : 2 < r
    · simp only [atempo_up, if_pos h2]
      exact ih (r / 2) (by positivity)
    · simpa [atempo_up, if_neg h2] using h

lemma atempo_down_prod (n : Nat) : ∀ r : Rat,
    (atempo_down n r).1.prod * (atempo_down n r).2 = r := by
  induction n with
  | zero => intro r; simp [atempo_down]
  | succ n ih =>
    intro r
    by_cases h : 0 < r ∧ r < 1/2
    · simp only [atempo_down, if_pos h, List.prod_cons]
      have := ih (r * 2)
      field_simp at this ⊢
      linarith
    · simp only [atempo_down]
      rw [if_neg h]
      simp

lemma atempo_down_mem (n : Nat) : ∀ (r x : Rat), x ∈ (atempo_down n r).1 → x = 1/2 := by
  induction n with
  | zero => intro r x hx; simp [atempo_down] at hx
  | succ n ih =>
    intro r x hx
    by_cases h : 0 < r ∧ r < 1/2
    · simp only [atempo_down, if_pos h, List.mem_cons] at hx
      rcases hx with hx | hx
      · simpa using hx
      · exact ih (r * 2) x hx
    · simp only [atempo_down] at hx
      rw [if_neg h] at hx
      simp at hx

lemma atempo_down_ge (n : Nat) : ∀ r : Rat, 1/2 ≤ r * 2 ^ n →
    1/2 ≤ (atempo_down n r).2 := by
  induction n with
  | zero => intro r h; simpa [atempo_down] using h
  | succ n ih =>
    intro r h
    by_cases h2 : 0 < r ∧ r < 1/2
    · simp only [atempo_down, if_pos h2]
      refine ih (r * 2) ?_
      rw [pow_succ] at h
      linarith
    · simp only [atempo_down, if_neg h2]
      rcases not_and_or.mp h2 with h3 | h3
      · exfalso
        have hr : r ≤ 0 := not_lt.mp h3
        have hpow : (0 : Rat) < 2 ^ (n + 1) := by positivity
        nlinarith
      · exact not_lt.mp h3

lemma atempo_down_le (n : Nat) : ∀ r : Rat, r ≤ 2 → (atempo_down n r).2 ≤ 2 := by
  induction n with
  | zero => intro r h; simpa [atempo_down] using h
  | succ n ih =>
    intro r h
    by_cases h2 : 0 < r ∧ r < 1/2
    · simp only [atempo_down, if_pos h2]
      exact ih (r * 2) (by linarith [h2.2])
    · simp only [atempo_down]
      rw [if_neg h2]
      exact h

lemma atempo_down_pos (n : Nat) : ∀ r : Rat, 0 < r → 0 < (atempo_down n r).2 := by
  induction n with
  | zero => intro r h; simpa [atempo_down] using h
  | succ n ih =>
    intro r h
    by_cases h2 : 0 < r ∧ r < 1/2
    · simp only [atempo_down, if_pos h2]
      exact ih (r * 2) (by positivity)
    · simp only [atempo_down]
      rw [if_neg h2]
      exact h

lemma rat_le_num (r : Rat) (h : 0 < r) : r ≤ (r.num : Rat) := by
  have hden : (1 : Rat) ≤ (r.den : Rat) := by
    exact_mod_cast r.den_pos
  conv_lhs => rw [← Rat.num_div_den r]
  exact div_le_self (by exact_mod_cast (Rat.num_pos.mpr h).le) hden

lemma atempo_fuel_up_sufficient (r : Rat) (h : 0 < r) :
    r ≤ 2 * 2 ^ atempo_fuel r := by
  have h1 : r ≤ (r.num : Rat) := rat_le_num r h
  have h2 : (r.num : Rat) = (r.num.natAbs : Rat) := by
    rw [Int.cast_natAbs, abs_of_nonneg]
    exact_mod_cast (Rat.num_pos.mpr h).le
  have h3 : (r.num.natAbs : Rat) < 2 ^ r.num.natAbs := by
    exact_mod_cast Nat.lt_two_pow r.num.natAbs
  have h4 : (2 : Rat) ^ r.num.natAbs ≤ 2 ^ atempo_fuel r := by
    apply pow_le_pow_right₀ (by norm_num)
    exact Nat.le_add_right _ _
  have h5 : (0 : Rat) < 2 ^ atempo_fuel r := by positivity
  nlinarith

lemma atempo_fuel_down_sufficient (r : Rat) (h : 0 < r) :
    1/2 ≤ r * 2 ^ atempo_fuel r := by
  have hnum : (1 : Rat) ≤ (r.num : Rat) := by
    exact_mod_cast Rat.num_pos.mpr h
  have hden0 : (0 : Rat) < (r.den : Rat) := by exact_mod_cast r.den_pos
  have h1 : 1 / (r.den : Rat) ≤ r := by
    conv_rhs => rw [← Rat.num_div_den r]
    gcongr
  have h2 : (r.den : Rat) ≤ 2 ^ r.den := by
    exact_mod_cast (Nat.lt_two_pow r.den).le
  have h3 : (2 : Rat) ^ r.den ≤ 2 ^ atempo_fuel r := by
    apply pow_le_pow_right₀ (by norm_num)
    exact Nat.le_add_left _ _
  have h4 : (1 : Rat) ≤ r * 2 ^ atempo_fuel r := by
    have hr0 : (0 : Rat) < r := h
    have : 1 / (r.den : Rat) * (r.den : Rat) = 1 := by
      field_simp
    calc (1 : Rat) = 1 / (r.den : Rat) * (r.den : Rat) := this.symm
      _ ≤ r * 2 ^ atempo_fuel r := by
          apply mul_le_mul h1 (h2.trans h3) hden0.le hr0.le
  linarith

lemma atempo_remainder_bounds (speed : Rat) (h : 0 < speed) :
    1/2 ≤ atempo_remainder speed ∧ atempo_remainder speed ≤ 2 := by
  have hu2 : (atempo_up (atempo_fuel speed) speed).2 ≤ 2 :=
    atempo_up_le _ speed (atempo_fuel_up_sufficient speed h)
  have hupos : 0 < (atempo_up (atempo_fuel speed) speed).2 :=
    atempo_up_pos _ speed h
  constructor
  · exact atempo_down_ge _ _ (atempo_fuel_down_sufficient _ hupos)
  · exact atempo_down_le _ _ hu2

lemma round_to_4_mono {a b : Rat} (h : a ≤ b) : round_to_4 a ≤ round_to_4 b := by
  unfold round_to_4
  have : round (a * 10000) ≤ round (b * 10000) := by
    rw [round_eq, round_eq]
    exact Int.floor_le_floor (by linarith)
  have hcast : ((round (a * 10000) : ℤ) : Rat) ≤ ((round (b * 10000) : ℤ) : Rat) := by
    exact_mod_cast this
  linarith

lemma round_to_4_half : round_to_4 (1/2) = 1/2 := by
  unfold round_to_4
  rw [show (1 : Rat)/2 * 10000 = ((5000 : ℤ) : Rat) by norm_num, round_intCast]
  norm_num

lemma round_to_4_two : round_to_4 2 = 2 := by
  unfold round_to_4
  rw [show (2 : Rat) * 10000 = ((20000 : ℤ) : Rat) by norm_num, round_intCast]
  norm_num

lemma atempo_filters_mem (speed : Rat) (h : 0 < speed) :
    ∀ x ∈ atempo_filters speed, 1/2 ≤ x ∧ x ≤ 2 := by
  intro x hx
  unfold atempo_filters at hx
  simp only [List.mem_append] at hx
  rcases hx with (hx | hx) | hx
  · have := atempo_up_mem _ _ _ hx
    subst this
    norm_num
  · have := atempo_down_mem _ _ _ hx
    subst this
    norm_num
  · have hrem := atempo_remainder_bounds speed h
    have hxval : x = round_to_4 (atempo_remainder speed) := by
      by_cases hne : atempo_remainder speed ≠ 1
      · rw [if_pos hne] at hx
        simpa using hx
      · rw [if_neg hne] at hx
        simp at hx
    rw [hxval]
    constructor
    · calc (1 : Rat)/2 = round_to_4 (1/2) := round_to_4_half.symm
        _ ≤ round_to_4 (atempo_remainder speed) := round_to_4_mono hrem.1
    · calc round_to_4 (atempo_remainder speed) ≤ round_to_4 2 :=
          round_to_4_mono hrem.2
        _ = 2 := round_to_4_two

lemma atempo_filters_prod (speed : Rat)
    (hr : round_to_4 (atempo_remainder speed) = atempo_remainder speed) :
    (atempo_filters speed).prod = speed := by
  have hup := atempo_up_prod (atempo_fuel speed) speed
  have hdown := atempo_down_prod
    (atempo_fuel (atempo_up (atempo_fuel speed) speed).2)
    (atempo_up (atempo_fuel speed) speed).2
  have hrem : atempo_remainder speed =
      (atempo_down (atempo_fuel (atempo_up (atempo_fuel speed) speed).2)
        (atempo_up (atempo_fuel speed) speed).2).2 := rfl
  unfold atempo_filters
  by_cases hne : atempo_remainder speed ≠ 1
  · rw [if_pos hne]
    simp only [List.prod_append, List.prod_cons, List.prod_nil, hr]
    rw [hrem]
    linear_combination (atempo_up (atempo_fuel speed) speed).1.prod * hdown + hup
  · rw [if_neg hne]
    push_neg at hne
    rw [hrem] at hne
    rw [hne, mul_one] at hdown
    simp only [List.prod_append, List.prod_nil]
    linear_combination (atempo_up (atempo_fuel speed) speed).1.prod * hdown + hup

/-- Claim C6 (amended): with durations at least 0.1 s apart and audio
present, the matcher selects the stretch action whose audio chain is
`atempo_filters (Ds/Dt)`; every stage lies within [0.5, 2.0]; the product
of the stages equals the speed factor whenever four-decimal rounding
leaves the residual stage unchanged (the source formats the residual with
`%.4f`); and `DurationMatcher(10s, 5s)` yields exactly one stage at the
boundary value 2.0. -/
theorem claim_C6 (Ds Dt : Rat) (hDs : 0 < Ds) (hDt : 0 < Dt)
    (hgap : ¬ |Ds - Dt| < 1/10) :
    match_action Ds Dt true =
      MatchAction.stretch (1 / (Ds / Dt)) (some (atempo_filters (Ds / Dt))) ∧
    (∀ x ∈ atempo_filters (Ds / Dt), 1/2 ≤ x ∧ x ≤ 2) ∧
    (round_to_4 (atempo_remainder (Ds / Dt)) = atempo_remainder (Ds / Dt) →
      (atempo_filters (Ds / Dt)).prod = Ds / Dt) ∧
    match_action 10 5 true = MatchAction.stretch (1/2) (some [2]) ∧
    atempo_filters ((10 : Rat) / 5) = [2] := by
  have hfil2 : atempo_filters 2 = [2] := by
    have hrem : atempo_remainder 2 = 2 := by
      norm_num [atempo_remainder, atempo_fuel, atempo_up, atempo_down]
    unfold atempo_filters
    rw [hrem]
    norm_num [atempo_fuel, atempo_up, atempo_down, round_to_4_two]
  have h105 : (10 : Rat) / 5 = 2 := by norm_num
  refine ⟨?_, atempo_filters_mem _ (div_pos hDs hDt),
    fun hr => atempo_filters_prod _ hr, ?_, ?_⟩
  · unfold match_action
    rw [if_neg hgap]
    rfl
  · unfold match_action
    rw [if_neg (by rw [show (10:Rat) - 5 = 5 by norm_num, abs_of_pos] <;> norm_num)]
    rw [h105, hfil2]
    norm_num
  · rw [h105, hfil2]

/-- Counterexample to C6 as stated: with source 4 s and target 3 s the
speed factor is 4/3, and the single atempo stage the source emits is the
four-decimal formatting `atempo=1.3333` — its product is 13333/10000,
not 4/3. -/
theorem claim_C6_counterexample :
    ¬ |(4 : Rat) - 3| < 1/10 ∧
    match_action 4 3 true =
      MatchAction.stretch (3/4) (some (atempo_filters ((4 : Rat) / 3))) ∧
    atempo_filters ((4 : Rat) / 3) = [13333/10000] ∧
    (atempo_filters ((4 : Rat) / 3)).prod ≠ (4 : Rat) / 3 := by
  have habs : ¬ |(4 : Rat) - 3| < 1/10 := by
    rw [show (4:Rat) - 3 = 1 by norm_num, abs_of_pos] <;> norm_num
  have hrem : atempo_remainder ((4 : Rat) / 3) = 4/3 := by
    norm_num [atempo_remainder, atempo_fuel, atempo_up, atempo_down]
  have hfil : atempo_filters ((4 : Rat) / 3) = [13333/10000] := by
    unfold atempo_filters
    rw [hrem]
    have hr4 : round_to_4 ((4 : Rat)/3) = 13333/10000 := by
      unfold round_to_4
      rw [round_eq]
      norm_num [Int.floor_eq_iff]
    norm_num [atempo_fuel, atempo_up, atempo_down, hr4]
  refine ⟨habs, ?_, hfil, ?_⟩
  · unfold match_action
    rw [if_neg habs]
    norm_num
  · rw [hfil]
    norm_num

/-- Witness for the amended C6 at the spec's instance: source 10 s,
target 5 s. -/
theorem claim_C6_witness :
    ((0 : Rat) < 10 ∧ (0 : Rat) < 5 ∧ ¬ |(10 : Rat) - 5| < 1/10) ∧
    (match_action 10 5 true =
      MatchAction.stretch (1 / ((10 : Rat) / 5))
        (some (atempo_filters ((10 : Rat) / 5))) ∧
    (∀ x ∈ atempo_filters ((10 : Rat) / 5), 1/2 ≤ x ∧ x ≤ 2) ∧
    (round_to_4 (atempo_remainder ((10 : Rat) / 5)) =
        atempo_remainder ((10 : Rat) / 5) →
      (atempo_filters ((10 : Rat) / 5)).prod = (10 : Rat) / 5) ∧
    match_action 10 5 true = MatchAction.stretch (1/2) (some [2]) ∧
    atempo_filters ((10 : Rat) / 5) = [2]) :=
  ⟨⟨by norm_num, by norm_num,
    by rw [show (10:Rat) - 5 = 5 by norm_num, abs_of_pos] <;> norm_num⟩,
   claim_C6 10 5 (by norm_num) (by norm_num)
     (by rw [show (10:Rat) - 5 = 5 by norm_num, abs_of_pos] <;> norm_num)⟩

lemma run_loop_fail (proc : Segment → Option Segment → Segment × Bool)
    (hpres : ∀ s p, (proc s p).1.order = s.order) :
    ∀ (k : Nat) (L : List Segment) (prev : Option Segment) (idx cur : Nat)
      (hk : k < L.length),
      (∀ i (h : i < k) (p : Option Segment),
        (proc (L.get ⟨i, lt_trans h hk⟩) p).2 = true ∧
        (proc (L.get ⟨i, lt_trans h hk⟩) p).1.status = SegmentStatus.completed) →
      (∀ p : Option Segment,
        (proc (L.get ⟨k, hk⟩) p).2 = false ∧
        (proc (L.get ⟨k, hk⟩) p).1.status = SegmentStatus.failed) →
      (run_generation_job_loop proc L prev idx cur).2.2 = true ∧
      (run_generation_job_loop proc L prev idx cur).2.1 = idx + k ∧
      (run_generation_job_loop proc L prev idx cur).1.length = L.length ∧
      (∀ i (h1 : i < L.length)
        (h2 : i < (run_generation_job_loop proc L prev idx cur).1.length),
        ((run_generation_job_loop proc L prev idx cur).1.get ⟨i, h2⟩).order =
          (L.get ⟨i, h1⟩).order ∧
        (i < k →
          ((run_generation_job_loop proc L prev idx cur).1.get ⟨i, h2⟩).status =
            SegmentStatus.completed) ∧
        (i = k →
          ((run_generation_job_loop proc L prev idx cur).1.get ⟨i, h2⟩).status =
            SegmentStatus.failed) ∧
        (k < i →
          (run_generation_job_loop proc L prev idx cur).1.get ⟨i, h2⟩ =
            L.get ⟨i, h1⟩)) := by
  intro k
  induction k with
  | zero =>
    intro L prev idx cur hk hbefore hfail
    cases L with
    | nil => simp at hk
    | cons s rest =>
      have hf : (proc s prev).2 = false ∧
          (proc s prev).1.status = SegmentStatus.failed := hfail prev
      have hloop : run_generation_job_loop proc (s :: rest) prev idx cur =
          ((proc s prev).1 :: rest, idx, true) := by
        simp only [run_generation_job_loop]
        rw [hf.1]
        simp
      rw [hloop]
      refine ⟨rfl, by simp, by simp, ?_⟩
      intro i h1 h2
      match i with
      | 0 => exact ⟨hpres s prev, by omega, fun _ => hf.2, by omega⟩
      | j + 1 => exact ⟨rfl, by omega, by omega, fun _ => rfl⟩
  | succ k ih =>
    intro L prev idx cur hk hbefore hfail
    cases L with
    | nil => simp at hk
    | cons s rest =>
      have hb0 : (proc s prev).2 = true ∧
          (proc s prev).1.status = SegmentStatus.completed :=
        hbefore 0 (Nat.succ_pos k) prev
      have hk2 : k < rest.length := by
        simp only [List.length_cons] at hk
        omega
      have hbefore2 : ∀ i (h : i < k) (p : Option Segment),
          (proc (rest.get ⟨i, lt_trans h hk2⟩) p).2 = true ∧
          (proc (rest.get ⟨i, lt_trans h hk2⟩) p).1.status =
            SegmentStatus.completed :=
        fun i h p => hbefore (i + 1) (by omega) p
      have hfail2 : ∀ p : Option Segment,
          (proc (rest.get ⟨k, hk2⟩) p).2 = false ∧
          (proc (rest.get ⟨k, hk2⟩) p).1.status = SegmentStatus.failed :=
        fun p => hfail p
      have IH := ih rest (some (proc s prev).1) (idx + 1) idx hk2 hbefore2 hfail2
      obtain ⟨IH1, IH2, IH3, IH4⟩ := IH
      have hloop : run_generation_job_loop proc (s :: rest) prev idx cur =
          ((proc s prev).1 ::
            (run_generation_job_loop proc rest (some (proc s prev).1)
              (idx + 1) idx).1,
           (run_generation_job_loop proc rest (some (proc s prev).1)
              (idx + 1) idx).2.1,
           (run_generation_job_loop proc rest (some (proc s prev).1)
              (idx + 1) idx).2.2) := by
        simp only [run_generation_job_loop]
        rw [hb0.1]
        simp
      rw [hloop]
      refine ⟨IH1, ?_, ?_, ?_⟩
      · show (run_generation_job_loop proc rest (some (proc s prev).1)
            (idx + 1) idx).2.1 = idx + (k + 1)
        omega
      · simp only [List.length_cons, IH3]
      · intro i h1 h2
        match i with
        | 0 => exact ⟨hpres s prev, fun _ => hb0.2, by omega, by omega⟩
        | j + 1 =>
          simp only [List.length_cons] at h1 h2
          have hj1 : j < rest.length := by omega
          have hj2 : j <
              (run_generation_job_loop proc rest (some (proc s prev).1)
                (idx + 1) idx).1.length := by omega
          obtain ⟨P1, P2, P3, P4⟩ := IH4 j hj1 hj2
          exact ⟨P1, fun h => P2 (by omega), fun h => P3 (by omega),
            fun h => P4 (by omega)⟩

lemma run_loop_ok (proc : Segment → Option Segment → Segment × Bool) :
    ∀ (L : List Segment) (prev : Option Segment) (idx cur : Nat),
      (∀ s p, s ∈ L → (proc s p).2 = true ∧
        (proc s p).1.status = SegmentStatus.completed) →
      (run_generation_job_loop proc L prev idx cur).2.2 = false ∧
      (∀ s2 ∈ (run_generation_job_loop proc L prev idx cur).1,
        s2.status = SegmentStatus.completed) := by
  intro L
  induction L with
  | nil => intro prev idx cur hall; simp [run_generation_job_loop]
  | cons s rest ih =>
    intro prev idx cur hall
    have h0 := hall s prev (List.mem_cons_self s rest)
    have IH := ih (some (proc s prev).1) (idx + 1) idx
      (fun x p hx => hall x p (List.mem_cons_of_mem s hx))
    simp only [run_generation_job_loop, h0.1, if_true]
    refine ⟨IH.1, ?_⟩
    intro s2 hs2
    rcases List.mem_cons.mp hs2 with h | h
    · rw [h]; exact h0.2
    · exact IH.2 s2 h

/-- Claim C1: if, during a full-job run, the processor would fail on the
segment at index k after completing every earlier segment, the loop stops
with the job paused (never failed), `current_segment_index = k`, every
segment with order < k completed, the failing segment marked failed, and
every segment with order > k untouched. -/
theorem claim_C1 (proc : Segment → Option Segment → Segment × Bool)
    (assemble_ok : List String → Bool) (job : Job) (k : Nat)
    (hk : k < job.segments.length)
    (horders : ∀ i (h : i < job.segments.length),
      (job.segments.get ⟨i, h⟩).order = i)
    (hpres : ∀ s p, (proc s p).1.order = s.order)
    (hbefore : ∀ i (h : i < k) (p : Option Segment),
      (proc (job.segments.get ⟨i, lt_trans h hk⟩) p).2 = true ∧
      (proc (job.segments.get ⟨i, lt_trans h hk⟩) p).1.status =
        SegmentStatus.completed)
    (hfail : ∀ p : Option Segment,
      (proc (job.segments.get ⟨k, hk⟩) p).2 = false ∧
      (proc (job.segments.get ⟨k, hk⟩) p).1.status = SegmentStatus.failed) :
    (run_generation_job proc assemble_ok job).status = JobStatus.paused ∧
    (run_generation_job proc assemble_ok job).status ≠ JobStatus.failed ∧
    (run_generation_job proc assemble_ok job).current_segment_index = k ∧
    (run_generation_job proc assemble_ok job).segments.length =
      job.segments.length ∧
    (∀ i (h1 : i < job.segments.length)
        (h2 : i < (run_generation_job proc assemble_ok job).segments.length),
      ((run_generation_job proc assemble_ok job).segments.get ⟨i, h2⟩).order
        = i ∧
      (((run_generation_job proc assemble_ok job).segments.get
          ⟨i, h2⟩).order < k →
        ((run_generation_job proc assemble_ok job).segments.get
          ⟨i, h2⟩).status = SegmentStatus.completed) ∧
      (((run_generation_job proc assemble_ok job).segments.get
          ⟨i, h2⟩).order = k →
        ((run_generation_job proc assemble_ok job).segments.get
          ⟨i, h2⟩).status = SegmentStatus.failed) ∧
      (k < ((run_generation_job proc assemble_ok job).segments.get
          ⟨i, h2⟩).order →
        (run_generation_job proc assemble_ok job).segments.get ⟨i, h2⟩ =
          job.segments.get ⟨i, h1⟩)) := by
  obtain ⟨Hf, Hcur, Hlen, Hpt⟩ :=
    run_loop_fail proc hpres k job.segments none 0 job.current_segment_index
      hk hbefore hfail
  have hkres : k < (run_generation_job_loop proc job.segments none 0
      job.current_segment_index).1.length := by
    rw [Hlen]
    exact hk
  have hfailedk : ((run_generation_job_loop proc job.segments none 0
      job.current_segment_index).1.get ⟨k, hkres⟩).status =
      SegmentStatus.failed :=
    (Hpt k hk hkres).2.2.1 rfl
  have hall : ((run_generation_job_loop proc job.segments none 0
      job.current_segment_index).1.all
        (fun s => s.status = SegmentStatus.completed)) = false := by
    rcases Bool.eq_false_or_eq_true ((run_generation_job_loop proc
        job.segments none 0 job.current_segment_index).1.all
          (fun s => s.status = SegmentStatus.completed)) with h | h
    · exfalso
      have hmem : (run_generation_job_loop proc job.segments none 0
          job.current_segment_index).1.get ⟨k, hkres⟩ ∈
          (run_generation_job_loop proc job.segments none 0
            job.current_segment_index).1 :=
        List.get_mem _ _ hkres
      have := List.all_eq_true.mp h _ hmem
      rw [hfailedk] at this
      simp at this
    · exact h
  have hres : run_generation_job proc assemble_ok job =
      { job with
        segments := (run_generation_job_loop proc job.segments none 0
          job.current_segment_index).1
        current_segment_index := (run_generation_job_loop proc job.segments
          none 0 job.current_segment_index).2.1
        status := JobStatus.paused } := by
    unfold run_generation_job run_generation_job_finish
    rw [Hf]
    simp only [if_true]
    rw [if_neg (by simp [hall])]
  rw [hres]
  refine ⟨rfl, by simp, by simpa using Hcur, by simpa using Hlen, ?_⟩
  intro i h1 h2
  have h2b : i < (run_generation_job_loop proc job.segments none 0
      job.current_segment_index).1.length := h2
  obtain ⟨P1, P2, P3, P4⟩ := Hpt i h1 h2b
  have hord : ((run_generation_job_loop proc job.segments none 0
      job.current_segment_index).1.get ⟨i, h2b⟩).order = i := by
    rw [P1]
    exact horders i h1
  refine ⟨hord, ?_, ?_, ?_⟩
  · intro h
    exact P2 (by rw [hord] at h; exact h)
  · intro h
    exact P3 (by rw [hord] at h; exact h)
  · intro h
    exact P4 (by rw [hord] at h; exact h)

/-- Claim C3: when every segment processes successfully, the job ends
completed; final assembly is invoked on the segments' combined (or raw)
paths in ascending order (`job_video_paths`), an assembly failure is
swallowed leaving `final_video_path` unset, and a success records the
`/videos/combined/final_<id>.mp4` output. -/
theorem claim_C3 (proc : Segment → Option Segment → Segment × Bool)
    (assemble_ok : List String → Bool) (job : Job)
    (hfinal : job.final_video_path = none)
    (hall : ∀ s p, s ∈ job.segments → (proc s p).2 = true ∧
      (proc s p).1.status = SegmentStatus.completed) :
    (run_generation_job proc assemble_ok job).status = JobStatus.completed ∧
    (run_generation_job proc assemble_ok job).final_video_path =
      (if (job_video_paths
            (run_generation_job proc assemble_ok job).segments).isEmpty
       then none
       else if assemble_ok (job_video_paths
            (run_generation_job proc assemble_ok job).segments) then
         some (final_output_path job.id)
       else none) := by
  obtain ⟨Hf, Hcomp⟩ :=
    run_loop_ok proc job.segments none 0 job.current_segment_index hall
  have halltrue : ((run_generation_job_loop proc job.segments none 0
      job.current_segment_index).1.all
        (fun s => s.status = SegmentStatus.completed)) = true := by
    rw [List.all_eq_true]
    intro x hx
    simpa using Hcomp x hx
  have hsegs : (run_generation_job proc assemble_ok job).segments =
      (run_generation_job_loop proc job.segments none 0
        job.current_segment_index).1 := by
    unfold run_generation_job run_generation_job_finish
    rw [Hf]
    simp only [Bool.false_eq_true, if_false]
    rw [if_pos (by simpa using halltrue)]
    by_cases hemp : (job_video_paths
        (run_generation_job_loop proc job.segments none 0
          job.current_segment_index).1).isEmpty
    · rw [if_pos (by simpa using hemp)]
    · rw [if_neg (by simpa using hemp)]
      by_cases hok : assemble_ok (job_video_paths
          (run_generation_job_loop proc job.segments none 0
            job.current_segment_index).1)
      · rw [if_pos (by simpa using hok)]
      · rw [if_neg (by simpa using hok)]
  constructor
  · unfold run_generation_job run_generation_job_finish
    rw [Hf]
    simp only [Bool.false_eq_true, if_false]
    rw [if_pos (by simpa using halltrue)]
  · rw [hsegs]
    unfold run_generation_job run_generation_job_finish
    rw [Hf]
    simp only [Bool.false_eq_true, if_false]
    rw [if_pos (by simpa using halltrue)]
    by_cases hemp : (job_video_paths
        (run_generation_job_loop proc job.segments none 0
          job.current_segment_index).1).isEmpty
    · rw [if_pos (by simpa using hemp), if_pos hemp]
      exact hfinal
    · rw [if_neg (by simpa using hemp), if_neg hemp]
      by_cases hok : assemble_ok (job_video_paths
          (run_generation_job_loop proc job.segments none 0
            job.current_segment_index).1)
      · rw [if_pos (by simpa using hok), if_pos hok]
      · rw [if_neg (by simpa using hok), if_neg hok]
        exact hfinal

/-- Witness for C1: a three-segment job whose processor fails at index 1. -/
theorem claim_C1_witness :
    (1 < job3.segments.length ∧
     (∀ p : Option Segment, (proc_fail_b seg_b p).2 = false ∧
       (proc_fail_b seg_b p).1.status = SegmentStatus.failed)) ∧
    ((run_generation_job proc_fail_b assemble_always job3).status =
      JobStatus.paused ∧
    (run_generation_job proc_fail_b assemble_always job3).status ≠
      JobStatus.failed ∧
    (run_generation_job proc_fail_b assemble_always job3).current_segment_index
      = 1 ∧
    (run_generation_job proc_fail_b assemble_always job3).segments.length =
      job3.segments.length ∧
    (∀ i (h1 : i < job3.segments.length)
        (h2 : i <
          (run_generation_job proc_fail_b assemble_always job3).segments.length),
      ((run_generation_job proc_fail_b assemble_always job3).segments.get
        ⟨i, h2⟩).order = i ∧
      (((run_generation_job proc_fail_b assemble_always job3).segments.get
          ⟨i, h2⟩).order < 1 →
        ((run_generation_job proc_fail_b assemble_always job3).segments.get
          ⟨i, h2⟩).status = SegmentStatus.completed) ∧
      (((run_generation_job proc_fail_b assemble_always job3).segments.get
          ⟨i, h2⟩).order = 1 →
        ((run_generation_job proc_fail_b assemble_always job3).segments.get
          ⟨i, h2⟩).status = SegmentStatus.failed) ∧
      (1 < ((run_generation_job proc_fail_b assemble_always job3).segments.get
          ⟨i, h2⟩).order →
        (run_generation_job proc_fail_b assemble_always job3).segments.get
          ⟨i, h2⟩ = job3.segments.get ⟨i, h1⟩))) :=
  ⟨⟨by decide, fun p => ⟨by simp [proc_fail_b, seg_b], by simp [proc_fail_b, seg_b]⟩⟩,
   claim_C1 proc_fail_b assemble_always job3 1 (by decide)
     (by
       intro i h
       have h3 : i < 3 := h
       interval_cases i <;> rfl)
     (by
       intro s p
       by_cases hb : s.id = "b" <;> simp [proc_fail_b, proc_ok, hb])
     (by
       intro i h p
       have h1 : i < 1 := h
       interval_cases i
       exact ⟨by simp [proc_fail_b, proc_ok, job3, seg_a],
         by simp [proc_fail_b, proc_ok, job3, seg_a]⟩)
     (by
       intro p
       exact ⟨by simp [proc_fail_b, job3, seg_b],
         by simp [proc_fail_b, job3, seg_b]⟩)⟩

/-- Witness for C3: a three-segment job whose processor always succeeds,
with a succeeding assembler. -/
theorem claim_C3_witness :
    (job3.final_video_path = none ∧
     (∀ s p, s ∈ job3.segments → (proc_ok s p).2 = true ∧
       (proc_ok s p).1.status = SegmentStatus.completed)) ∧
    ((run_generation_job proc_ok assemble_always job3).status =
      JobStatus.completed ∧
    (run_generation_job proc_ok assemble_always job3).final_video_path =
      (if (job_video_paths
            (run_generation_job proc_ok assemble_always job3).segments).isEmpty
       then none
       else if assemble_always (job_video_paths
            (run_generation_job proc_ok assemble_always job3).segments) then
         some (final_output_path job3.id)
       else none)) :=
  ⟨⟨rfl, fun _ _ _ => ⟨rfl, rfl⟩⟩,
   claim_C3 proc_ok assemble_always job3 rfl
     (fun _ _ _ => ⟨rfl, rfl⟩)⟩

/-- Claim C5 (code bug in the main service): on a transition segment
with no voiceover, the serverless pipeline raises before any frame
extraction, visual generation or composition (empty event trace), and it
delegates to the transition composer when audio is present; but the
main-service `process_segment` performs no such check — at the same
failing input it proceeds to generate the soundwave overlay (a visual
event appears in its trace) and only fails afterwards. -/
theorem claim_C5 :
    (serverless_transition_slice ext0 seg_transition_no_audio none).ok
      = false ∧
    (serverless_transition_slice ext0 seg_transition_no_audio none).events
      = [] ∧
    (serverless_transition_slice ext0 seg_transition_audio none).ok = true ∧
    (serverless_transition_slice ext0 seg_transition_audio none).events.any
      is_compose_event = true ∧
    (process_segment ext0 seg_transition_no_audio none).ok = false ∧
    (process_segment ext0 seg_transition_no_audio none).events.any
      is_visual_event = true := by
  refine ⟨rfl, rfl, rfl, rfl, rfl, rfl⟩

/-- Claim C9: a transition with narration audio whose last-frame lookup
produces nothing (no previous segment, or an extraction failure) is
composed over the synthesized black placeholder frame, and the
composition command crops the output to exactly the audio file's measured
duration (`out_limit = adur`); with the subsequent combine step
succeeding, the run completes. -/
theorem claim_C9 (ext : ExtCalls) (seg : Segment) (prev : Option Segment)
    (vo : VoiceoverConfig) (apath : String) (d adur vd2 : Rat)
    (ov out cpath : String) (os : Option String)
    (htype : seg.type = SegmentType.transition)
    (hvo : seg.voiceover = some vo)
    (htts : ext.generate_voiceover vo = .ok (apath, d))
    (hframe : (transition_last_frame ext prev).1 = none)
    (hvis : ext.generate_visual .transition seg.description d
      (some (soundwave_template_script (some apath))) = .ok (some ov, os))
    (hadur : ext.get_media_duration apath = .ok adur)
    (hcomp : ext.run_transition_ffmpeg
      (create_transition_composition_cmd adur ext.black_frame_path ov apath)
      = .ok out)
    (hvd : ext.get_media_duration out = .ok vd2)
    (hmux : ext.run_combine_ffmpeg
      (combine_audio_video_cmd out apath vd2 adur) = .ok cpath) :
    (create_transition_composition_cmd adur ext.black_frame_path ov
      apath).background = ext.black_frame_path ∧
    (create_transition_composition_cmd adur ext.black_frame_path ov
      apath).out_limit = adur ∧
    (process_segment ext seg prev).ok = true ∧
    (process_segment ext seg prev).segment.video_path = some out ∧
    (process_segment ext seg prev).segment.combined_path = some cpath ∧
    (process_segment ext seg prev).events =
      [Event.tts] ++ (transition_last_frame ext prev).2 ++
      [Event.gen_visual .transition
        (some (soundwave_template_script (some apath))),
       Event.compose (create_transition_composition_cmd adur
         ext.black_frame_path ov apath),
       Event.combine (combine_audio_video_cmd out apath vd2 adur)] := by
  refine ⟨rfl, rfl, ?_, ?_, ?_, ?_⟩ <;>
    simp [process_segment, hvo, htts, process_segment_visual, htype, hframe,
      hvis, hadur, hcomp, process_segment_check_video, process_segment_stretch,
      process_segment_combine, hvd, hmux]

/-- Witness for C9: the fixture transition segment with audio, no
previous segment, processed with the sample collaborators. -/
theorem claim_C9_witness :
    (seg_transition_audio.type = SegmentType.transition ∧
     ext0.get_media_duration "/videos/audio/vo.wav" = .ok 4 ∧
     (transition_last_frame ext0 none).1 = none) ∧
    ((create_transition_composition_cmd 4 ext0.black_frame_path
        "/videos/overlay.mp4" "/videos/audio/vo.wav").background =
      ext0.black_frame_path ∧
     (create_transition_composition_cmd 4 ext0.black_frame_path
        "/videos/overlay.mp4" "/videos/audio/vo.wav").out_limit = 4 ∧
     (process_segment ext0 seg_transition_audio none).ok = true ∧
     (process_segment ext0 seg_transition_audio none).segment.video_path =
       some "/videos/combined/transition.mp4" ∧
     (process_segment ext0 seg_transition_audio none).segment.combined_path =
       some "/videos/combined/combined.mp4" ∧
     (process_segment ext0 seg_transition_audio none).events =
       [Event.tts] ++ (transition_last_frame ext0 none).2 ++
       [Event.gen_visual .transition
          (some (soundwave_template_script (some "/videos/audio/vo.wav"))),
        Event.compose (create_transition_composition_cmd 4
          ext0.black_frame_path "/videos/overlay.mp4" "/videos/audio/vo.wav"),
        Event.combine (combine_audio_video_cmd
          "/videos/combined/transition.mp4" "/videos/audio/vo.wav" 5 4)]) :=
  ⟨⟨rfl, by simp [ext0], rfl⟩,
   claim_C9 ext0 seg_transition_audio none
     { text := "hello", voice := "Schedar", speed := 27/20 }
     "/videos/audio/vo.wav" 4 4 5 "/videos/overlay.mp4"
     "/videos/combined/transition.mp4" "/videos/combined/combined.mp4" none
     rfl rfl rfl rfl rfl (by simp [ext0]) rfl (by simp [ext0]) rfl⟩

end Iris
